import Mathlib

/-!
Verification of the prompt-publishing core of the Patient-Builder repository
(`src/Ex.py`): the text Segmenter (`_split_into_segments`), the Message
Builder (`_parse_markdown_segments` plus the fallback/cleanup logic of
`publish_prompt_in_folder`), the folder resolver (`ensure_patient_folder`,
`_extract_folder_id_from_response`) and the cascading multi-endpoint
delivery protocol of `publish_prompt_in_folder`.

The Python code is embedded shallowly:
* JSON values are modelled by `JVal` (numbers are integers; the API payloads
  in scope use no floats).
* Python `str` operations (`strip`, `lower`, `split`, slicing) are modelled
  over `List Char`, matching CPython semantics on the character classes the
  program uses (`\s` = space, tab, newline, vertical tab, form feed,
  carriage return; `lower` on the ASCII range).
* The HTTP transport is a pure oracle `net : Attempt → NetResult`; a
  `transportError` models an exception raised by `httpx` (the source wraps
  no `try`/`except` around its `client.post` calls, so such an exception
  propagates out of the publisher), and `resp status jsonBody rawText`
  models a received response, `jsonBody = none` meaning `r.json()` raised
  (an unparsable body).
* Recursions that are not structural in the source (regex scanning,
  chunking, nested-response probing) take an explicit fuel argument that is
  instantiated large enough that it can never be exhausted on the actual
  input (each step consumes at least one character / one nesting level).
-/

/-- JSON-like values, the data exchanged with the remote service. -/
inductive JVal where
  | null : JVal
  | bool (b : Bool) : JVal
  | num (n : Int) : JVal
  | str (s : String) : JVal
  | arr (xs : List JVal) : JVal
  | obj (fields : List (String × JVal)) : JVal

/-- Key lookup in the field list of a JSON object (Python `dict` access;
keys are unique in any dict the program builds or receives). -/
def lookupFields : List (String × JVal) → String → Option JVal
  | [], _ => none
  | (k, v) :: rest, key => if k = key then some v else lookupFields rest key

/-- `resp.get(key)` on a JSON object, `none` when `resp` is not an object
or the key is absent. -/
def jGet : JVal → String → Option JVal
  | JVal.obj fields, key => lookupFields fields key
  | _, _ => none

/-- `resp.get(key)` with Python's `None` result embedded as `JVal.null`. -/
def jGetD (v : JVal) (key : String) : JVal := (jGet v key).getD JVal.null

/-- Python truthiness of a JSON value. -/
def pyTruthy : JVal → Bool
  | JVal.null => false
  | JVal.bool b => b
  | JVal.num n => !(n == 0)
  | JVal.str s => !(s == "")
  | JVal.arr xs => !xs.isEmpty
  | JVal.obj fields => !fields.isEmpty

/-- Python `a or b`: the first operand when truthy, else the second. -/
def pyOr (a b : JVal) : JVal := if pyTruthy a then a else b

/-- Python's `\s` class on the characters that can occur after newline
normalization (re module default, non-unicode-exotic range). -/
def isPySpace (c : Char) : Bool :=
  c == ' ' || c == '\t' || c == '\n' || c == '\x0b' || c == '\x0c' || c == '\r'

/-- Python `str.strip()` restricted to the `\s` characters above. -/
def pyStrip (s : String) : String :=
  String.mk (((s.data.dropWhile isPySpace).reverse.dropWhile isPySpace).reverse)

/-- `str.lower()` on the ASCII range (folder names in scope are ASCII). -/
def lowerChar (c : Char) : Char :=
  if 'A' ≤ c && c ≤ 'Z' then Char.ofNat (c.toNat + 32) else c

/-- `str.lower()` lifted to strings. -/
def pyLower (s : String) : String := String.mk (s.data.map lowerChar)

/-- Digits-only parse used by `int(...)` after sign/whitespace handling. -/
def natDigits (cs : List Char) : Option Int :=
  if cs ≠ [] && cs.all (·.isDigit) then
    some (cs.foldl (fun acc c => acc * 10 + (Int.ofNat (c.toNat - '0'.toNat))) 0)
  else none

/-- Python `int(s)` on a string: strip whitespace, optional sign, digits. -/
def parseIntStr (s : String) : Option Int :=
  let cs := ((s.data.dropWhile isPySpace).reverse.dropWhile isPySpace).reverse
  match cs with
  | '+' :: rest => natDigits rest
  | '-' :: rest => (natDigits rest).map (fun n => -n)
  | rest => natDigits rest

/-- Python `int(x)` on a JSON value: succeeds on integers, booleans and
integer-literal strings; raises (here: `none`) on `None`, lists, dicts and
non-numeric strings — exactly the cases the source catches with
`try`/`except`. -/
def pyInt : JVal → Option Int
  | JVal.num n => some n
  | JVal.bool b => some (if b then 1 else 0)
  | JVal.str s => parseIntStr s
  | _ => none

/-! ## The Segmenter: `_split_into_segments` (src/Ex.py lines 201-234) -/

/-- `\s*\n` with a greedy, backtracking `\s*`: succeeds iff the maximal
whitespace run starting here contains a newline, and consumes through the
last such newline.  Used for the tail of both regexes in the source. -/
def wsNl : List Char → Option (List Char)
  | [] => none
  | c :: rest =>
    if c == '\n' then some ((wsNl rest).getD rest)
    else if isPySpace c then wsNl rest
    else none

/-- One match of `re.split`'s pattern `\n\s*---+\s*\n` anchored at the
current position; returns the rest of the input after the separator. -/
def matchDashSep : List Char → Option (List Char)
  | '\n' :: rest =>
    let afterWs := rest.dropWhile isPySpace
    let dashes := afterWs.takeWhile (· == '-')
    if dashes.length ≥ 3 then wsNl (afterWs.drop dashes.length) else none
  | _ => none

/-- `re.split(r"\n\s*---+\s*\n", text)`: scan left to right for the
leftmost separator, cut, continue after it.  `acc` holds the current piece
reversed; fuel ≥ remaining length (each step consumes ≥ 1 character). -/
def dashSplit : Nat → List Char → List Char → List (List Char)
  | 0, acc, _ => [acc.reverse]
  | _ + 1, acc, [] => [acc.reverse]
  | fuel + 1, acc, c :: rest =>
    match matchDashSep (c :: rest) with
    | some after => acc.reverse :: dashSplit fuel [] after
    | none => dashSplit fuel (c :: acc) rest

/-- `text.split("\n\n")`: literal non-overlapping leftmost split, keeping
empty pieces (they are filtered later, as in the source). -/
def splitNN : List Char → List (List Char)
  | '\n' :: '\n' :: rest => [] :: splitNN rest
  | c :: rest =>
    match splitNN rest with
    | [] => [[c]]
    | p :: ps => (c :: p) :: ps
  | [] => [[]]

/-- `[p.strip() for p in parts if p.strip()]` (the source's extra `if p`
test is subsumed: an empty `p` also has an empty `p.strip()`). -/
def stripNonempty (parts : List String) : List String :=
  (parts.map pyStrip).filter (fun s => s ≠ "")

/-- The chunking loop: `for i in range(0, len(text), 1500): ...` appending
non-empty stripped 1500-character windows to `segs`, breaking once five
segments exist.  Fuel ≥ number of windows (each step drops 1500 chars). -/
def chunkAdd : Nat → List Char → List String → List String
  | 0, _, segs => segs
  | _ + 1, [], segs => segs
  | fuel + 1, cs, segs =>
    let chunk := pyStrip (String.mk (cs.take 1500))
    let segs2 := if chunk ≠ "" then segs ++ [chunk] else segs
    if segs2.length ≥ 5 then segs2 else chunkAdd fuel (cs.drop 1500) segs2

/-- The shared forced-midpoint idiom (src/Ex.py lines 230-233, 260-263,
331-333): `mid = len(head)//2 or 1`, then
`[head[:mid].strip(), head[mid:].strip() or "(continued)"]`. -/
def forceMidpoint (head : String) : List String :=
  let mid := if head.length / 2 == 0 then 1 else head.length / 2
  let second := pyStrip (String.mk (head.data.drop mid))
  [pyStrip (String.mk (head.data.take mid)),
   if second == "" then "(continued)" else second]

/-- `_split_into_segments` (src/Ex.py lines 201-234). -/
def _split_into_segments (text : String) : List String :=
  let dash_parts :=
    stripNonempty ((dashSplit (text.length + 1) [] text.data).map String.mk)
  let segments := if dash_parts.length ≥ 2 then dash_parts.take 5 else []
  let segments :=
    if segments.length < 2 then
      (stripNonempty ((splitNN text.data).map String.mk)).take 5
    else segments
  let segments :=
    if segments.length < 2 then chunkAdd (text.length + 1) text.data segments
    else segments
  let segments :=
    match segments with
    | [head] => forceMidpoint head
    | _ => segments
  segments.take 5

example : _split_into_segments "" = [] := by decide
example : _split_into_segments "Hello world" = ["Hello world", "Hello world"] := by decide
example : _split_into_segments "a\n\nb" = ["a", "b"] := by decide
example : _split_into_segments "a\n---\nb" = ["a", "b"] := by decide

/-! ## Messages and the markdown section parser
(`_parse_markdown_segments`, src/Ex.py lines 237-274) -/

/-- One `{"type": "text", "text": ...}` content block. -/
structure ContentItem where
  type : String
  text : String
deriving DecidableEq, Repr

/-- Shorthand for the only content shape the program builds. -/
def mkText (s : String) : ContentItem := { type := "text", text := s }

/-- One chat message as built by the program: a dict with keys `role`,
`template_format`, `input_variables`, `content`. -/
structure PLMessage where
  role : String
  template_format : String
  input_variables : List String
  content : List ContentItem
deriving DecidableEq, Repr

/-- Newline normalization: `text.replace("\r\n", "\n").replace("\r", "\n")`
(the second replace makes the two sequential passes equal to this single
left-to-right pass). -/
def normNewlines : List Char → List Char
  | '\r' :: '\n' :: rest => '\n' :: normNewlines rest
  | '\r' :: rest => '\n' :: normNewlines rest
  | c :: rest => c :: normNewlines rest
  | [] => []

/-- The role alternation `(System|User|Assistant)` of the section regex. -/
def matchRole : List Char → Option (String × List Char)
  | 'S' :: 'y' :: 's' :: 't' :: 'e' :: 'm' :: rest => some ("System", rest)
  | 'U' :: 's' :: 'e' :: 'r' :: rest => some ("User", rest)
  | 'A' :: 's' :: 's' :: 'i' :: 's' :: 't' :: 'a' :: 'n' :: 't' :: rest =>
    some ("Assistant", rest)
  | _ => none

/-- A section header `###\s*(System|User|Assistant)\s*\n` anchored at a
line start; returns the role label and the rest after the header's final
newline (the greedy-backtracking `\s*\n` tail is `wsNl`). -/
def matchHeader (cs : List Char) : Option (String × List Char) :=
  match cs with
  | '#' :: '#' :: '#' :: rest =>
    match matchRole (rest.dropWhile isPySpace) with
    | some (role, rest2) =>
      match wsNl rest2 with
      | some rest3 => some (role, rest3)
      | none => none
    | none => none
  | _ => none

/-- The lazy section body `(.*?)` up to the lookahead
`(?=\n^###\s*(System|User|Assistant)\s*\n|\Z)`: the body stops at the
first newline that is followed by a section header, or at the end of the
input.  Returns the body and the unconsumed rest (empty, or starting with
that newline). -/
def scanBody : List Char → List Char × List Char
  | [] => ([], [])
  | c :: rest =>
    if c == '\n' && (matchHeader rest).isSome then ([], c :: rest)
    else
      let (b, r) := scanBody rest
      (c :: b, r)

/-- `re.findall` over the section pattern: scan for header matches (which
can only start at a line start because of the `^` anchor), take the lazy
body, resume after the body.  Fuel ≥ input length + 1 (every recursive
call strictly shortens the input). -/
def findSections : Nat → List Char → Bool → List (String × List Char)
  | 0, _, _ => []
  | _ + 1, [], _ => []
  | fuel + 1, c :: rest, atLineStart =>
    if atLineStart then
      match matchHeader (c :: rest) with
      | some (role, bodyStart) =>
        let (body, after) := scanBody bodyStart
        (role, body) ::
          (match after with
           | [] => []
           | _ :: hrest => findSections fuel hrest true)
      | none => findSections fuel rest (c == '\n')
    else findSections fuel rest (c == '\n')

/-- `role_map.get(role_label, "system")`. -/
def role_map : String → String
  | "System" => "system"
  | "User" => "user"
  | "Assistant" => "assistant"
  | _ => "system"

/-- Message built for one matched section (body of the `for role_label,
body, _ in matches` loop, src/Ex.py lines 251-273). -/
def sectionMessage (role_label : String) (body : List Char) : PLMessage :=
  let role := role_map role_label
  let body_text := pyStrip (String.mk body)
  let contents :=
    if role == "system" then
      let sys_segments := _split_into_segments body_text
      let sys_segments :=
        match sys_segments with
        | [head] => forceMidpoint head
        | _ => sys_segments
      (sys_segments.take 5).map mkText
    else
      if body_text ≠ "" then [mkText body_text] else [mkText ""]
  { role := role
    template_format := "jinja2"
    input_variables := if role == "user" then ["provider_question"] else []
    content := contents }

/-- `_parse_markdown_segments` (src/Ex.py lines 237-274). -/
def _parse_markdown_segments (text : String) : Option (List PLMessage) :=
  let t := normNewlines text.data
  let found := findSections (t.length + 1) t true
  if found.isEmpty then none
  else
    let messages := found.map (fun m => sectionMessage m.1 m.2)
    if messages.isEmpty then none else some messages

example : _parse_markdown_segments "Hello world" = none := by decide
example : _parse_markdown_segments "" = none := by decide
example :
    _parse_markdown_segments "### System\nA\n\n### Assistant\nB\n" =
      some [{ role := "system", template_format := "jinja2", input_variables := [],
              content := [mkText "A", mkText "A"] },
            { role := "assistant", template_format := "jinja2", input_variables := [],
              content := [mkText "B"] }] := by decide

/-! ## Message construction inside `publish_prompt_in_folder`
(src/Ex.py lines 297-334) -/

/-- The ack text of the synthesized assistant message. -/
def ackText : String :=
  "Understood. I will respond as the patient persona following these guidelines."

/-- The fixed user contents of the unlabeled fallback mode. -/
def fallbackUserContents : List ContentItem :=
  [mkText "CURRENT PROVIDER QUESTION:", mkText "\x7b\x7b provider_question \x7d\x7d"]

/-- Message construction (src/Ex.py lines 297-323): labeled mode drops
`assistant` messages; unlabeled mode synthesizes system/user/assistant. -/
def buildMessages (content_text : String) : List PLMessage :=
  match _parse_markdown_segments content_text with
  | none =>
    let segments := _split_into_segments content_text
    [{ role := "system", template_format := "jinja2",
       input_variables := ["provider_question"], content := segments.map mkText },
     { role := "user", template_format := "jinja2",
       input_variables := ["provider_question"], content := fallbackUserContents },
     { role := "assistant", template_format := "jinja2",
       input_variables := ["provider_question"], content := [mkText ackText] }]
  | some parsed_messages =>
    parsed_messages.filter (fun m => !(m.role == "assistant"))

/-- `"\n\n".join(texts)`. -/
def joinNN : List String → String
  | [] => ""
  | [s] => s
  | s :: rest => s ++ "\n\n" ++ joinNN rest

/-- The `>= 2` segment enforcement applied to each message before the first
delivery attempt (src/Ex.py lines 325-334). -/
def enforceSystem (m : PLMessage) : PLMessage :=
  if m.role == "system" && m.content.length < 2 then
    let sys_text := joinNN (m.content.map (·.text))
    let forced := _split_into_segments sys_text
    let forced :=
      if forced.length < 2 && sys_text ≠ "" then forceMidpoint sys_text else forced
    { m with content := (forced.take 5).map mkText }
  else m

/-- The messages held in `messages` at the moment the first network
delivery is attempted. -/
def publishMessages (content_text : String) : List PLMessage :=
  (buildMessages content_text).map enforceSystem

example :
    (publishMessages "").map (fun m => (m.role, m.content.length)) =
      [("system", 0), ("user", 2), ("assistant", 1)] := by decide

/-! ## REST envelope of delivery attempt 2 (src/Ex.py lines 389-436) -/

/-- Collapsing one message's segments for the REST shape (src/Ex.py lines
392-401): join all texts with a blank line into a single content block
(`template_format`/`input_variables` are always present in the messages
this program builds, so the two `if ... not in nm` defaults never fire). -/
def collapseMessage (m : PLMessage) : PLMessage :=
  { m with content := [mkText (joinNN (m.content.map (·.text)))] }

/-- `rest_messages` (src/Ex.py lines 390-401). -/
def build_rest_messages (messages : List PLMessage) : List PLMessage :=
  messages.map collapseMessage

/-- The inner `prompt_template` dict of the REST envelope. -/
structure RestTemplateInner where
  type : String
  messages : List PLMessage
  input_variables : List String
  dataset_examples : List JVal

/-- One of the two identical template dicts of the REST envelope. -/
structure RestTemplate where
  prompt_name : String
  folder_id : Int
  prompt_template : RestTemplateInner
  commit_message : Option String
  metadata : Option JVal

/-- The whole `rest_body` envelope sent to `/rest/prompt-templates`. -/
structure RestBody where
  prompt_template : RestTemplate
  prompt_version : RestTemplate

/-- `rest_body` (src/Ex.py lines 411-436): the same template dict written
out twice, under the keys `prompt_template` and `prompt_version`. -/
def build_rest_body (prompt_name : String) (folder_id : Int)
    (commit_message : Option String) (metadata : Option JVal)
    (messages : List PLMessage) : RestBody :=
  let rest_messages := build_rest_messages messages
  { prompt_template :=
      { prompt_name := prompt_name, folder_id := folder_id,
        prompt_template :=
          { type := "chat", messages := rest_messages,
            input_variables := [], dataset_examples := [] },
        commit_message := commit_message, metadata := metadata }
    prompt_version :=
      { prompt_name := prompt_name, folder_id := folder_id,
        prompt_template :=
          { type := "chat", messages := rest_messages,
            input_variables := [], dataset_examples := [] },
        commit_message := commit_message, metadata := metadata } }

/-! ## The delivery protocol (src/Ex.py lines 352-535)

The transport is an oracle per attempt.  `transportError` models an
exception raised by `httpx.Client.post` (timeout, connection error): the
source has no `try`/`except` around any of its five `post` calls, so such
an exception propagates out of `publish_prompt_in_folder`; this is the
`Except.error` case.  A received response carries its HTTP status, its
parsed JSON body if `r.json()` succeeds, and its raw text otherwise. -/

/-- The five delivery attempts, in source order. -/
inductive Attempt where
  | v2 | rest | legacy | folderScoped | completion
deriving DecidableEq, Repr

/-- Outcome of one `client.post` call. -/
inductive NetResult where
  | resp (status : Nat) (jsonBody : Option JVal) (rawText : String)
  | transportError (msg : String)

/-- `True` exactly when the post call raised. -/
def isTransport : NetResult → Bool
  | NetResult.transportError _ => true
  | NetResult.resp _ _ _ => false

/-- `r.status_code in (200, 201)`, the source's success test. -/
def respOk : NetResult → Bool
  | NetResult.resp s _ _ => s == 200 || s == 201
  | NetResult.transportError _ => false

/-- The `data` value the source computes from a response: the parsed JSON
body, or `{"raw": r.text}` when `r.json()` raised. -/
def respData : NetResult → JVal
  | NetResult.resp _ jb raw => jb.getD (JVal.obj [("raw", JVal.str raw)])
  | NetResult.transportError _ => JVal.null

/-- Attempts 2-5 (src/Ex.py lines 405-535), entered when v2 was skipped
(`force_legacy`) or failed; `tr` is the trace of attempts already made. -/
def publish_legacy_chain (tr : List Attempt) (net : Attempt → NetResult) :
    Except String (List Attempt × JVal) :=
  match net Attempt.rest with
  | NetResult.transportError e => Except.error e
  | NetResult.resp s2 j2 w2 =>
    let dataR := (Option.getD j2 (JVal.obj [("raw", JVal.str w2)]))
    if s2 == 200 || s2 == 201 then Except.ok (tr ++ [Attempt.rest], dataR) else
    match net Attempt.legacy with
    | NetResult.transportError e => Except.error e
    | NetResult.resp s3 j3 w3 =>
      let data2 := (Option.getD j3 (JVal.obj [("raw", JVal.str w3)]))
      if s3 == 200 || s3 == 201 then
        Except.ok (tr ++ [Attempt.rest, Attempt.legacy], data2) else
      match net Attempt.folderScoped with
      | NetResult.transportError e => Except.error e
      | NetResult.resp s4 j4 w4 =>
        let dataF := (Option.getD j4 (JVal.obj [("raw", JVal.str w4)]))
        if s4 == 200 || s4 == 201 then
          Except.ok (tr ++ [Attempt.rest, Attempt.legacy, Attempt.folderScoped], dataF) else
        match net Attempt.completion with
        | NetResult.transportError e => Except.error e
        | NetResult.resp s5 j5 w5 =>
          let dataC := (Option.getD j5 (JVal.obj [("raw", JVal.str w5)]))
          if s5 == 200 || s5 == 201 then
            Except.ok (tr ++ [Attempt.rest, Attempt.legacy, Attempt.folderScoped,
                              Attempt.completion], dataC)
          else
            Except.ok (tr ++ [Attempt.rest, Attempt.legacy, Attempt.folderScoped,
                              Attempt.completion],
              JVal.obj [("rest", dataR), ("legacy", data2),
                        ("folder", dataF), ("completion", dataC)])

/-- The network phase of `publish_prompt_in_folder` (lines 357-535): the
v2 attempt unless `force_legacy`, then the legacy chain. -/
def publish_delivery (force_legacy : Bool) (net : Attempt → NetResult) :
    Except String (List Attempt × JVal) :=
  if force_legacy then publish_legacy_chain [] net
  else
    match net Attempt.v2 with
    | NetResult.transportError e => Except.error e
    | NetResult.resp s1 j1 w1 =>
      let data := (Option.getD j1 (JVal.obj [("raw", JVal.str w1)]))
      if s1 == 200 || s1 == 201 then Except.ok ([Attempt.v2], data)
      else publish_legacy_chain [Attempt.v2] net

/-- `publish_prompt_in_folder` (src/Ex.py lines 292-535), returning the
trace of network attempts made together with the returned dict.  The
dry-run branch (lines 352-355) returns before the first attempt; its
result dict carries exactly the keys `dry_run`, `folder_id` and
`prompt_name` (the computed messages are printed, not returned). -/
def publish_prompt_in_folder (folder_id : Int) (prompt_name : String)
    (_content_text : String) (force_legacy dry_run : Bool)
    (net : Attempt → NetResult) : Except String (List Attempt × JVal) :=
  if dry_run then
    Except.ok ([], JVal.obj [("dry_run", JVal.bool true),
                             ("folder_id", JVal.num folder_id),
                             ("prompt_name", JVal.str prompt_name)])
  else publish_delivery force_legacy net

/-! ## The folder resolver (src/Ex.py lines 140-193) -/

/-- `for key in ("id", "folder_id"): if key in resp: try int ... except
pass` (src/Ex.py lines 143-148): a present but unparsable `id` falls
through to `folder_id`, then to the nested wrappers. -/
def extractDirect (resp : JVal) : Option Int :=
  match jGet resp "id" with
  | some v =>
    (match pyInt v with
     | some n => some n
     | none =>
       match jGet resp "folder_id" with
       | some v2 => pyInt v2
       | none => none)
  | none =>
    match jGet resp "folder_id" with
    | some v2 => pyInt v2
    | none => none

/-- `_extract_folder_id_from_response` (src/Ex.py lines 140-161) with fuel
bounding the nesting depth (each recursive call descends into a strictly
nested value, so `sizeOf resp` fuel can never run out).  After the direct
keys: the dict wrappers `folder`/`data`/`result` are tried in order, a
`None` result moving on to the next; then a non-empty list under `data` or
`results` causes an immediate `return` of the recursion on its first
element, even when that recursion yields `None`. -/
def extractFolderIdFuel : Nat → JVal → Option Int
  | 0, _ => none
  | fuel + 1, resp =>
    match resp with
    | JVal.obj _ =>
      (extractDirect resp).orElse fun _ =>
      (match jGet resp "folder" with
       | some (JVal.obj fs) => extractFolderIdFuel fuel (JVal.obj fs)
       | _ => none).orElse fun _ =>
      (match jGet resp "data" with
       | some (JVal.obj fs) => extractFolderIdFuel fuel (JVal.obj fs)
       | _ => none).orElse fun _ =>
      (match jGet resp "result" with
       | some (JVal.obj fs) => extractFolderIdFuel fuel (JVal.obj fs)
       | _ => none).orElse fun _ =>
      (match jGet resp "data" with
       | some (JVal.arr (x :: _)) => extractFolderIdFuel fuel x
       | _ =>
         match jGet resp "results" with
         | some (JVal.arr (x :: _)) => extractFolderIdFuel fuel x
         | _ => none)
    | _ => none

mutual
/-- Size of a JSON value, an upper bound on its nesting depth. -/
def jsizeV : JVal → Nat
  | JVal.null => 1
  | JVal.bool _ => 1
  | JVal.num _ => 1
  | JVal.str _ => 1
  | JVal.arr xs => 1 + jsizeL xs
  | JVal.obj fs => 1 + jsizeF fs

/-- Size of a JSON array's elements. -/
def jsizeL : List JVal → Nat
  | [] => 0
  | x :: xs => 1 + jsizeV x + jsizeL xs

/-- Size of a JSON object's fields. -/
def jsizeF : List (String × JVal) → Nat
  | [] => 0
  | (_, v) :: fs => 1 + jsizeV v + jsizeF fs
end

/-- `_extract_folder_id_from_response` at adequate fuel. -/
def _extract_folder_id_from_response (resp : JVal) : Option Int :=
  extractFolderIdFuel (jsizeV resp) resp

/-- `f.get("name", "")` as a string (a non-string `name` value would make
`.strip()` raise in the source; no claim exercises that case). -/
def nameKey (f : JVal) : String :=
  match jGet f "name" with
  | some (JVal.str s) => s
  | _ => ""

/-- The listing-entry name test of src/Ex.py lines 172 and 187:
`isinstance(f, dict) and f.get("name", "").strip().lower() ==
patient_full_name.strip().lower()`. -/
def folderNameMatches (target : String) (f : JVal) : Bool :=
  (match f with | JVal.obj _ => true | _ => false) &&
    (pyLower (pyStrip (nameKey f)) == pyLower (pyStrip target))

/-- `int(f.get("id") or f.get("folder_id"))` as an option. -/
def entryFolderId (f : JVal) : Option Int :=
  pyInt (pyOr (jGetD f "id") (jGetD f "folder_id"))

/-- The remote directory service, abstracted: the entries the first
`list_children` call yields (an empty list when listing failed — the call
is wrapped in `try`/`except` defaulting to `[]`), the body the
`create_folder` call returns, and the entries of the re-listing done when
id extraction fails. -/
structure ResolverEnv where
  listing : List JVal
  createResp : JVal
  listingAfter : List JVal

/-- The create path of `ensure_patient_folder` (src/Ex.py lines 179-193):
create, probe the response for an id, on failure re-list once and match by
name (a parse failure there returns `None` directly). -/
def ensureCreate (env : ResolverEnv) (name : String) : Bool × Option Int :=
  match _extract_folder_id_from_response env.createResp with
  | some fid => (true, some fid)
  | none =>
    match env.listingAfter.find? (folderNameMatches name) with
    | some f => (true, entryFolderId f)
    | none => (true, none)

/-- `ensure_patient_folder` (src/Ex.py lines 164-193).  The first
component records whether a folder-creation request was issued.  The
matching loop takes the FIRST entry whose name matches; if that entry's
id fails `int(...)`, the loop `break`s and the create path runs even when
a later entry would have matched with a good id. -/
def ensure_patient_folder (env : ResolverEnv) (_parent_id : Int)
    (patient_full_name : String) : Bool × Option Int :=
  match env.listing.find? (folderNameMatches patient_full_name) with
  | some f =>
    match entryFolderId f with
    | some n => (false, some n)
    | none => ensureCreate env patient_full_name
  | none => ensureCreate env patient_full_name

example :
    ensure_patient_folder
      { listing := [JVal.obj [("id", JVal.num 7), ("name", JVal.str "Jane Doe")]],
        createResp := JVal.obj [], listingAfter := [] } 100 "Jane Doe" =
      (false, some 7) := by decide

/-! ## Claim C2 — Segmenter output bounds -/

/-- C2: the claim says the Segmenter returns 2-5 non-empty segments for
every input including the empty string (with a midpoint-split fallback for
degenerate input).  The code's own docstring promises the same ("Ensures
at least 2 segments"), but on the empty string — and on any whitespace-only
string — every strategy yields zero parts, the `len(segments) == 1`
midpoint guard does not fire, and the function returns the empty list. -/
theorem C2_segmenter_empty_input_yields_no_segments :
    _split_into_segments "" = [] ∧ _split_into_segments " \n \t " = [] := by decide

/-! ## Claim C3 — ≥2 system segments before delivery -/

/-- C3: the claim (and the source comment "Ensure system has >= 2 segments
before attempting publish") requires every system message to carry at
least 2 content segments when the first network delivery is attempted.
For the empty document the unlabeled fallback builds a system message with
zero segments, and the enforcement pass (src/Ex.py lines 325-334) leaves
it at zero: the joined text is empty, so the forced midpoint split is
skipped (`... and sys_text` is falsy) and `forced[:5]` is empty. -/
theorem C3_empty_document_system_message_without_segments :
    (publishMessages "").map (fun m => (m.role, m.content.length)) =
      [("system", 0), ("user", 2), ("assistant", 1)] := by decide

/-! ## Claim C5 — the "Hello world" scenario -/

/-- C5 counterexample: the claim says the Segmenter midpoint-splits
`"Hello world"` into `["Hello", "world"]` or an equivalent pair of two
non-empty halves.  Actually the paragraph pass yields the single part
`"Hello world"`, after which the chunking pass appends the whole text
again as one 1500-character window, so the result is the pair
`["Hello world", "Hello world"]` — and no split index `i` of the
11-character input has both trimmed halves equal to `"Hello world"`, so
the pair is not a pair of halves of the text. -/
theorem C5_counterexample :
    _split_into_segments "Hello world" = ["Hello world", "Hello world"] ∧
    (∀ i ≤ 11,
      ¬(pyStrip (String.mk (("Hello world").data.take i)) = "Hello world" ∧
        pyStrip (String.mk (("Hello world").data.drop i)) = "Hello world")) := by
  decide

/-- C5 (amended): for the input `"Hello world"` the Segmenter returns
exactly two non-empty segments, but each is the entire input text (the
paragraph part plus the whole text re-appended by the chunking pass); the
midpoint split never fires. -/
theorem C5_amended_duplicate_whole_text :
    (_split_into_segments "Hello world").length = 2 ∧
    ∀ s ∈ _split_into_segments "Hello world", s = "Hello world" ∧ s ≠ "" := by
  decide

/-! ## Claim C4 — unlabeled fallback mode shape -/

/-- C4: for every document without labeled sections, the fallback mode
produces exactly the three messages system (Segmenter output of the whole
document), user (the two fixed segments) and assistant (one fixed
acknowledgement), in this order. -/
theorem C4_fallback_three_messages (doc : String)
    (h : _parse_markdown_segments doc = none) :
    buildMessages doc =
      [{ role := "system", template_format := "jinja2",
         input_variables := ["provider_question"],
         content := (_split_into_segments doc).map mkText },
       { role := "user", template_format := "jinja2",
         input_variables := ["provider_question"],
         content := [mkText "CURRENT PROVIDER QUESTION:",
                     mkText "\x7b\x7b provider_question \x7d\x7d"] },
       { role := "assistant", template_format := "jinja2",
         input_variables := ["provider_question"],
         content := [mkText ackText] }] := by
  simp [buildMessages, h, fallbackUserContents]

/-- C4 witness: the unlabeled document `"Hello world"`. -/
theorem C4_fallback_three_messages_witness :
    _parse_markdown_segments "Hello world" = none ∧
    buildMessages "Hello world" =
      [{ role := "system", template_format := "jinja2",
         input_variables := ["provider_question"],
         content := (_split_into_segments "Hello world").map mkText },
       { role := "user", template_format := "jinja2",
         input_variables := ["provider_question"],
         content := [mkText "CURRENT PROVIDER QUESTION:",
                     mkText "\x7b\x7b provider_question \x7d\x7d"] },
       { role := "assistant", template_format := "jinja2",
         input_variables := ["provider_question"],
         content := [mkText ackText] }] :=
  ⟨by decide, C4_fallback_three_messages "Hello world" (by decide)⟩

/-! ## Claim C8 — the attempt-2 REST envelope -/

/-- C8 counterexample: the claim says the envelope of attempt 2 carries
the multi-segment messages of the construction phase, each message
retaining its multiple segments.  Actually the source collapses every
message to a single joined content block first (src/Ex.py lines 389-401):
for the document `"Hello world"` the construction phase yields messages
with 2/2/1 segments while the envelope's messages carry 1/1/1. -/
theorem C8_counterexample :
    ((build_rest_body "P1" 5 none none
        (publishMessages "Hello world")).prompt_template.prompt_template.messages).map
        (fun m => m.content.length) = [1, 1, 1] ∧
    (publishMessages "Hello world").map (fun m => m.content.length) = [2, 2, 1] ∧
    (build_rest_body "P1" 5 none none
        (publishMessages "Hello world")).prompt_template.prompt_template.messages ≠
      publishMessages "Hello world" := by
  decide

/-- C8 (amended): the attempt-2 request body is a nested envelope holding
the same template dict under the two keys `prompt_template` and
`prompt_version`, and the messages inside are the collapsed single-segment
versions of the construction-phase messages (each message's segment texts
joined with a blank-line separator). -/
theorem C8_amended_envelope (prompt_name : String) (folder_id : Int)
    (commit_message : Option String) (metadata : Option JVal)
    (messages : List PLMessage) :
    (build_rest_body prompt_name folder_id commit_message metadata
        messages).prompt_template =
      (build_rest_body prompt_name folder_id commit_message metadata
        messages).prompt_version ∧
    (build_rest_body prompt_name folder_id commit_message metadata
        messages).prompt_template.prompt_template.messages =
      messages.map (fun m =>
        { m with content := [mkText (joinNN (m.content.map (·.text)))] }) ∧
    ((build_rest_body prompt_name folder_id commit_message metadata
        messages).prompt_template.prompt_template.messages).map
        (fun m => m.content.length) = messages.map (fun _ => 1) := by
  refine ⟨rfl, rfl, ?_⟩
  simp only [build_rest_body, build_rest_messages, List.map_map]
  induction messages with
  | nil => rfl
  | cons m t ih => simpa [Function.comp, collapseMessage] using ih

/-! ## Claim C9 — folder resolution by name match -/

/-- Listing for the C9 counterexample: the first name-matching entry has a
non-numeric id, the second one has id 7. -/
def janeEnvBad : ResolverEnv :=
  { listing := [JVal.obj [("id", JVal.str "abc"), ("name", JVal.str "Jane Doe")],
                JVal.obj [("id", JVal.num 7), ("name", JVal.str "Jane Doe")]],
    createResp := JVal.obj [], listingAfter := [] }

/-- C9 counterexample: the claim says that whenever the listing contains
an entry whose name matches case-insensitively after trimming and whose id
parses as an integer, `ensure` returns that id and issues no creation
request.  With `janeEnvBad` the listing contains such an entry (id 7), but
the loop takes the FIRST matching entry, whose id fails `int(...)`, and
then `break`s straight into the create path: a creation request is issued
and the id 7 is never returned. -/
theorem C9_counterexample :
    (janeEnvBad.listing.any
        (fun f => folderNameMatches "Jane Doe" f && (entryFolderId f).isSome)) = true ∧
    ensure_patient_folder janeEnvBad 100 "Jane Doe" = (true, none) := by
  decide

/-- C9 (amended): when the FIRST entry of the listing whose name matches
the target case-insensitively after trimming has an id (`id`, or
`folder_id` when `id` is absent or falsy) that parses as an integer,
`ensure` returns that integer and issues no folder-creation request. -/
theorem C9_amended_first_match (env : ResolverEnv) (parent_id : Int)
    (name : String) (f : JVal) (n : Int)
    (hf : env.listing.find? (folderNameMatches name) = some f)
    (hn : entryFolderId f = some n) :
    ensure_patient_folder env parent_id name = (false, some n) := by
  simp [ensure_patient_folder, hf, hn]

/-- Listing for the C9 witness: the claim's own scenario. -/
def janeEnv : ResolverEnv :=
  { listing := [JVal.obj [("id", JVal.num 7), ("name", JVal.str "Jane Doe")]],
    createResp := JVal.obj [], listingAfter := [] }

/-- C9 witness: `ensure(parentId=100, name="Jane Doe")` with the listing
`[{"id": 7, "name": "Jane Doe"}]` resolves to 7 without a create request. -/
theorem C9_amended_first_match_witness :
    ensure_patient_folder janeEnv 100 "Jane Doe" = (false, some 7) :=
  C9_amended_first_match janeEnv 100 "Jane Doe"
    (JVal.obj [("id", JVal.num 7), ("name", JVal.str "Jane Doe")]) 7 rfl rfl

/-! ## Claim C10 — assistant messages dropped in labeled mode only -/

/-- Segment-count enforcement never changes a message's role. -/
theorem enforceSystem_role (m : PLMessage) : (enforceSystem m).role = m.role := by
  unfold enforceSystem
  split <;> rfl

/-- C10: in labeled mode (the document parses into sections) every
assistant message is removed before any delivery attempt, while in
unlabeled fallback mode exactly one assistant message — the fixed
acknowledgement — survives to delivery. -/
theorem C10_assistant_dropped_in_labeled_mode (doc : String) :
    ((_parse_markdown_segments doc).isSome = true →
      ∀ m ∈ publishMessages doc, m.role ≠ "assistant") ∧
    (_parse_markdown_segments doc = none →
      ((publishMessages doc).filter (fun m => m.role == "assistant")).map
          (fun m => m.content.map (·.text)) = [[ackText]]) := by
  constructor
  · intro h m hm
    cases hp : _parse_markdown_segments doc with
    | none => rw [hp] at h; simp at h
    | some parsed =>
      simp only [publishMessages, buildMessages, hp] at hm
      simp only [List.mem_map, List.mem_filter] at hm
      obtain ⟨m', ⟨_, hrole⟩, rfl⟩ := hm
      rw [enforceSystem_role]
      simpa using hrole
  · intro h
    have hcomm : ∀ l : List PLMessage,
        (l.map enforceSystem).filter (fun m => m.role == "assistant") =
          (l.filter (fun m => m.role == "assistant")).map enforceSystem := by
      intro l
      induction l with
      | nil => rfl
      | cons m t ih =>
        by_cases hm : (m.role == "assistant") = true
        · simp [List.filter_cons, enforceSystem_role, hm, ih]
        · simp only [Bool.not_eq_true] at hm
          simp [List.filter_cons, enforceSystem_role, hm, ih]
    simp only [publishMessages, buildMessages, h]
    rw [hcomm]
    have hs : (("system" : String) == "assistant") = false := by decide
    have hu : (("user" : String) == "assistant") = false := by decide
    have ha : (("assistant" : String) == "assistant") = true := by decide
    have hb : (("assistant" : String) == "system") = false := by decide
    simp [List.filter_cons, hs, hu, ha, hb, enforceSystem, mkText]

/-- C10 witness: a document with a labeled assistant section publishes
without assistant messages; an unlabeled document keeps the synthesized
acknowledgement. -/
theorem C10_assistant_dropped_witness :
    (∀ m ∈ publishMessages "### System\nA\n\n### Assistant\nB\n",
        m.role ≠ "assistant") ∧
    ((publishMessages "Hello world").filter (fun m => m.role == "assistant")).map
        (fun m => m.content.map (·.text)) = [[ackText]] :=
  ⟨fun m hm =>
      (C10_assistant_dropped_in_labeled_mode "### System\nA\n\n### Assistant\nB\n").1
        (by decide) m hm,
    (C10_assistant_dropped_in_labeled_mode "Hello world").2 (by decide)⟩

/-! ## Claim C1 — the cascading fallback order -/

/-- The claim's notion of a failed attempt, stated from the spec's words
("non-2xx status, transport error, or unparsable response") for comparison
with the code's success test `status in (200, 201)`. -/
def specAttemptFails : NetResult → Bool
  | NetResult.resp s jb _ => !(decide (200 ≤ s) && decide (s < 300)) || jb.isNone
  | NetResult.transportError _ => true

/-- The claim's notion of a successful attempt: a 2xx status with a
parsable body. -/
def specAttemptSucceeds : NetResult → Bool
  | NetResult.resp s jb _ => (decide (200 ≤ s) && decide (s < 300)) && jb.isSome
  | NetResult.transportError _ => false

/-- Transport for the C1 counterexample: attempt 1 answers 200 with an
unparsable body, attempts 2-4 answer 500, attempt 5 answers 200 with a
parsable success body. -/
def netC1 : Attempt → NetResult
  | Attempt.v2 => NetResult.resp 200 none "gibberish"
  | Attempt.completion => NetResult.resp 200 (some (JVal.obj [("id", JVal.num 5)])) ""
  | _ => NetResult.resp 500 (some (JVal.obj [("msg", JVal.str "fail")])) ""

/-- C1 counterexample: under the claim's failure notion attempts 1-4 fail
and attempt 5 succeeds, so the claim demands that all five attempts are
made and the attempt-5 success body `{"id": 5}` is returned.  The code
instead treats the 200-status unparsable response of attempt 1 as a
success: it stops after the single attempt 1 and returns the wrapper
`{"raw": "gibberish"}`, which carries no id. -/
theorem C1_counterexample :
    specAttemptFails (netC1 Attempt.v2) = true ∧
    specAttemptFails (netC1 Attempt.rest) = true ∧
    specAttemptFails (netC1 Attempt.legacy) = true ∧
    specAttemptFails (netC1 Attempt.folderScoped) = true ∧
    specAttemptSucceeds (netC1 Attempt.completion) = true ∧
    publish_delivery false netC1 =
      Except.ok ([Attempt.v2], JVal.obj [("raw", JVal.str "gibberish")]) ∧
    jGet (JVal.obj [("raw", JVal.str "gibberish")]) "id" = none ∧
    respData (netC1 Attempt.completion) = JVal.obj [("id", JVal.num 5)] :=
  ⟨by decide, by decide, by decide, by decide, by decide, rfl, rfl, rfl⟩

/-- C1 (amended): with the force-legacy flag unset and dry-run off, and no
transport exception, the attempts are issued in the fixed order v2, rest,
legacy, folder-scoped, completion; an attempt is made only after every
earlier attempt returned a status outside {200, 201}; the first attempt
with status 200 or 201 ends the run, returning its parsed body (or a
`{"raw": text}` wrapper when the body is unparsable) — in particular, if
attempts 1-4 fail in this sense and attempt 5 succeeds, the attempt-5
body is returned after exactly the five attempts. -/
theorem C1_amended_cascade (net : Attempt → NetResult)
    (hnt : ∀ a, isTransport (net a) = false) :
    (respOk (net Attempt.v2) = true →
      publish_delivery false net =
        Except.ok ([Attempt.v2], respData (net Attempt.v2))) ∧
    (respOk (net Attempt.v2) = false → respOk (net Attempt.rest) = true →
      publish_delivery false net =
        Except.ok ([Attempt.v2, Attempt.rest], respData (net Attempt.rest))) ∧
    (respOk (net Attempt.v2) = false → respOk (net Attempt.rest) = false →
      respOk (net Attempt.legacy) = true →
      publish_delivery false net =
        Except.ok ([Attempt.v2, Attempt.rest, Attempt.legacy],
          respData (net Attempt.legacy))) ∧
    (respOk (net Attempt.v2) = false → respOk (net Attempt.rest) = false →
      respOk (net Attempt.legacy) = false →
      respOk (net Attempt.folderScoped) = true →
      publish_delivery false net =
        Except.ok ([Attempt.v2, Attempt.rest, Attempt.legacy, Attempt.folderScoped],
          respData (net Attempt.folderScoped))) ∧
    (respOk (net Attempt.v2) = false → respOk (net Attempt.rest) = false →
      respOk (net Attempt.legacy) = false →
      respOk (net Attempt.folderScoped) = false →
      respOk (net Attempt.completion) = true →
      publish_delivery false net =
        Except.ok ([Attempt.v2, Attempt.rest, Attempt.legacy, Attempt.folderScoped,
            Attempt.completion],
          respData (net Attempt.completion))) := by
  obtain ⟨s1, j1, w1, h1⟩ : ∃ s j w, net Attempt.v2 = NetResult.resp s j w := by
    cases hv : net Attempt.v2 with
    | resp s j w => exact ⟨s, j, w, rfl⟩
    | transportError e => have hh := hnt Attempt.v2; rw [hv] at hh; simp [isTransport] at hh
  obtain ⟨s2, j2, w2, h2⟩ : ∃ s j w, net Attempt.rest = NetResult.resp s j w := by
    cases hv : net Attempt.rest with
    | resp s j w => exact ⟨s, j, w, rfl⟩
    | transportError e => have hh := hnt Attempt.rest; rw [hv] at hh; simp [isTransport] at hh
  obtain ⟨s3, j3, w3, h3⟩ : ∃ s j w, net Attempt.legacy = NetResult.resp s j w := by
    cases hv : net Attempt.legacy with
    | resp s j w => exact ⟨s, j, w, rfl⟩
    | transportError e => have hh := hnt Attempt.legacy; rw [hv] at hh; simp [isTransport] at hh
  obtain ⟨s4, j4, w4, h4⟩ : ∃ s j w, net Attempt.folderScoped = NetResult.resp s j w := by
    cases hv : net Attempt.folderScoped with
    | resp s j w => exact ⟨s, j, w, rfl⟩
    | transportError e => have hh := hnt Attempt.folderScoped; rw [hv] at hh; simp [isTransport] at hh
  obtain ⟨s5, j5, w5, h5⟩ : ∃ s j w, net Attempt.completion = NetResult.resp s j w := by
    cases hv : net Attempt.completion with
    | resp s j w => exact ⟨s, j, w, rfl⟩
    | transportError e => have hh := hnt Attempt.completion; rw [hv] at hh; simp [isTransport] at hh
  rw [h1, h2, h3, h4, h5]
  simp only [respOk, respData]
  refine ⟨?_, ?_, ?_, ?_, ?_⟩
  · intro k1
    simp [publish_delivery, h1, k1]
  · intro k1 k2
    simp [publish_delivery, publish_legacy_chain, h1, h2, k1, k2]
  · intro k1 k2 k3
    simp [publish_delivery, publish_legacy_chain, h1, h2, h3, k1, k2, k3]
  · intro k1 k2 k3 k4
    simp [publish_delivery, publish_legacy_chain, h1, h2, h3, h4, k1, k2, k3, k4]
  · intro k1 k2 k3 k4 k5
    simp [publish_delivery, publish_legacy_chain, h1, h2, h3, h4, h5, k1, k2, k3, k4, k5]

/-- Transport for the C1 witness: attempts 1-4 answer 500, attempt 5
answers 201 with body `{"id": 9}`. -/
def netC1w : Attempt → NetResult
  | Attempt.completion => NetResult.resp 201 (some (JVal.obj [("id", JVal.num 9)])) ""
  | _ => NetResult.resp 500 none "err"

/-- C1 witness: attempts 1-4 fail, attempt 5 succeeds, and publish makes
all five attempts in order and returns the attempt-5 body. -/
theorem C1_amended_cascade_witness :
    publish_delivery false netC1w =
      Except.ok ([Attempt.v2, Attempt.rest, Attempt.legacy, Attempt.folderScoped,
          Attempt.completion],
        JVal.obj [("id", JVal.num 9)]) :=
  (C1_amended_cascade netC1w (fun a => by cases a <;> rfl)).2.2.2.2
    rfl rfl rfl rfl rfl

/-! ## Claim C6 — dry-run short-circuit -/

/-- A transport that would fail every attempt, for the dry-run statements
(dry-run must not consult it at all). -/
def netAny : Attempt → NetResult := fun _ => NetResult.resp 500 none ""

/-- All strings a JSON value contains anywhere (object keys and string
leaves), at bounded depth; used to state that a value does not contain a
given text. -/
def jStringsF : Nat → JVal → List String
  | 0, _ => []
  | _ + 1, JVal.str s => [s]
  | _ + 1, JVal.null => []
  | _ + 1, JVal.bool _ => []
  | _ + 1, JVal.num _ => []
  | fuel + 1, JVal.arr xs => xs.foldr (fun x acc => jStringsF fuel x ++ acc) []
  | fuel + 1, JVal.obj fs => fs.foldr (fun kv acc => kv.1 :: (jStringsF fuel kv.2 ++ acc)) []

/-- C6 counterexample: the claim says the dry-run result contains the
computed messages for inspection.  The dry-run branch does make no network
attempt (the trace is empty), but it returns only
`{"dry_run": true, "folder_id": ..., "prompt_name": ...}` — the computed
messages (whose first segment text is `"Hello world"` here) appear nowhere
in that result; they are printed to the console instead. -/
theorem C6_counterexample :
    publish_prompt_in_folder 5 "P1" "Hello world" false true netAny =
      Except.ok ([], JVal.obj [("dry_run", JVal.bool true),
        ("folder_id", JVal.num 5), ("prompt_name", JVal.str "P1")]) ∧
    ((publishMessages "Hello world").map (fun m => m.content.map (·.text))) =
      [["Hello world", "Hello world"],
       ["CURRENT PROVIDER QUESTION:", "\x7b\x7b provider_question \x7d\x7d"],
       [ackText]] ∧
    "Hello world" ∉
      jStringsF 3 (JVal.obj [("dry_run", JVal.bool true),
        ("folder_id", JVal.num 5), ("prompt_name", JVal.str "P1")]) :=
  ⟨rfl, by decide, by decide⟩

/-- C6 (amended): with dry-run enabled the Publisher makes no network
attempt and returns the synthetic marker result
`{"dry_run": true, "folder_id": ..., "prompt_name": ...}`; the computed
messages are printed for inspection, not included in the result. -/
theorem C6_amended_dry_run (folder_id : Int) (prompt_name content_text : String)
    (force_legacy : Bool) (net : Attempt → NetResult) :
    publish_prompt_in_folder folder_id prompt_name content_text force_legacy true net =
      Except.ok ([], JVal.obj [("dry_run", JVal.bool true),
        ("folder_id", JVal.num folder_id),
        ("prompt_name", JVal.str prompt_name)]) := rfl

/-! ## Claim C7 — total-failure aggregation -/

/-- Transport for the C7 counterexample: attempt 2 raises a transport
error, every other attempt answers 500. -/
def netC7 : Attempt → NetResult
  | Attempt.rest => NetResult.transportError "timeout"
  | _ => NetResult.resp 500 (some (JVal.obj [("msg", JVal.str "fail")])) ""

/-- C7 counterexample: the claim says a publish call in which all
delivery attempts fail raises no error and returns an aggregate result.
Under the claim's own failure taxonomy (which counts a transport error as
an attempt failure) all attempts of `netC7` fail, yet the publisher does
not return a result: the `httpx` exception of attempt 2 propagates out of
`publish_prompt_in_folder`, which wraps none of its post calls in
`try`/`except`. -/
theorem C7_counterexample :
    (∀ a, specAttemptFails (netC7 a) = true) ∧
    publish_delivery false netC7 = Except.error "timeout" :=
  ⟨fun a => by cases a <;> rfl, rfl⟩

/-- The code's notion of a failed attempt: an HTTP response was received
and its status is not 200 or 201. -/
def httpFailed : NetResult → Bool
  | NetResult.resp s _ _ => !(s == 200 || s == 201)
  | NetResult.transportError _ => false

/-- C7 (amended): when every attempt receives an HTTP response with
status outside {200, 201} (no transport exception), the Publisher raises
no error and returns, after all five attempts, an aggregate of the bodies
of attempts 2-5 keyed `rest`/`legacy`/`folder`/`completion`; the aggregate
has no `id` field, whose absence is how the caller detects failure. -/
theorem C7_amended_aggregate (net : Attempt → NetResult)
    (h : ∀ a, httpFailed (net a) = true) :
    publish_delivery false net =
      Except.ok ([Attempt.v2, Attempt.rest, Attempt.legacy, Attempt.folderScoped,
          Attempt.completion],
        JVal.obj [("rest", respData (net Attempt.rest)),
                  ("legacy", respData (net Attempt.legacy)),
                  ("folder", respData (net Attempt.folderScoped)),
                  ("completion", respData (net Attempt.completion))]) ∧
    jGet (JVal.obj [("rest", respData (net Attempt.rest)),
                    ("legacy", respData (net Attempt.legacy)),
                    ("folder", respData (net Attempt.folderScoped)),
                    ("completion", respData (net Attempt.completion))]) "id" = none := by
  refine ⟨?_, rfl⟩
  obtain ⟨s1, j1, w1, h1, k1⟩ :
      ∃ s j w, net Attempt.v2 = NetResult.resp s j w ∧ (s == 200 || s == 201) = false := by
    cases hv : net Attempt.v2 with
    | resp s j w =>
      have hh := h Attempt.v2; rw [hv] at hh; simp only [httpFailed] at hh
      exact ⟨s, j, w, rfl, by simpa using hh⟩
    | transportError e => have hh := h Attempt.v2; rw [hv] at hh; simp [httpFailed] at hh
  obtain ⟨s2, j2, w2, h2, k2⟩ :
      ∃ s j w, net Attempt.rest = NetResult.resp s j w ∧ (s == 200 || s == 201) = false := by
    cases hv : net Attempt.rest with
    | resp s j w =>
      have hh := h Attempt.rest; rw [hv] at hh; simp only [httpFailed] at hh
      exact ⟨s, j, w, rfl, by simpa using hh⟩
    | transportError e => have hh := h Attempt.rest; rw [hv] at hh; simp [httpFailed] at hh
  obtain ⟨s3, j3, w3, h3, k3⟩ :
      ∃ s j w, net Attempt.legacy = NetResult.resp s j w ∧ (s == 200 || s == 201) = false := by
    cases hv : net Attempt.legacy with
    | resp s j w =>
      have hh := h Attempt.legacy; rw [hv] at hh; simp only [httpFailed] at hh
      exact ⟨s, j, w, rfl, by simpa using hh⟩
    | transportError e => have hh := h Attempt.legacy; rw [hv] at hh; simp [httpFailed] at hh
  obtain ⟨s4, j4, w4, h4, k4⟩ :
      ∃ s j w, net Attempt.folderScoped = NetResult.resp s j w ∧ (s == 200 || s == 201) = false := by
    cases hv : net Attempt.folderScoped with
    | resp s j w =>
      have hh := h Attempt.folderScoped; rw [hv] at hh; simp only [httpFailed] at hh
      exact ⟨s, j, w, rfl, by simpa using hh⟩
    | transportError e => have hh := h Attempt.folderScoped; rw [hv] at hh; simp [httpFailed] at hh
  obtain ⟨s5, j5, w5, h5, k5⟩ :
      ∃ s j w, net Attempt.completion = NetResult.resp s j w ∧ (s == 200 || s == 201) = false := by
    cases hv : net Attempt.completion with
    | resp s j w =>
      have hh := h Attempt.completion; rw [hv] at hh; simp only [httpFailed] at hh
      exact ⟨s, j, w, rfl, by simpa using hh⟩
    | transportError e => have hh := h Attempt.completion; rw [hv] at hh; simp [httpFailed] at hh
  rw [h2, h3, h4, h5]
  simp [publish_delivery, publish_legacy_chain, h1, h2, h3, h4, h5, k1, k2, k3, k4, k5,
    respData]

/-- Transport for the C7 witness: every attempt answers 500 with body
`{"msg": "no"}`. -/
def netFail : Attempt → NetResult :=
  fun _ => NetResult.resp 500 (some (JVal.obj [("msg", JVal.str "no")])) ""

/-- C7 witness: all attempts fail with HTTP 500 and publish returns the
aggregate of the four legacy bodies, with no id field. -/
theorem C7_amended_aggregate_witness :
    publish_delivery false netFail =
      Except.ok ([Attempt.v2, Attempt.rest, Attempt.legacy, Attempt.folderScoped,
          Attempt.completion],
        JVal.obj [("rest", JVal.obj [("msg", JVal.str "no")]),
                  ("legacy", JVal.obj [("msg", JVal.str "no")]),
                  ("folder", JVal.obj [("msg", JVal.str "no")]),
                  ("completion", JVal.obj [("msg", JVal.str "no")])]) :=
  (C7_amended_aggregate netFail (fun a => by cases a <;> rfl)).1
